import Mathlib

/-!
Shallow embedding of `livekit/agents/tts/tts.py`: the provider-agnostic
TTS streaming layer (TTS factory, ChunkedStream, SynthesizeStream).

Async code is embedded as explicit state passing: each stream is a record of
its channel states and timeout fields; `__anext__` becomes a pure step
function parametrised by the environment's arrival schedule (what the
background task delivers during a blocking wait, and when).  Python floats
used for timeouts are embedded as `Rat`.
-/

/-- Modelled from the spec: `aio.Chan`, the EventQueue of spec section 4.1 (the
source file imports it from `..utils.aio`, which is not part of the provided
sources).  An ordered FIFO single-reader channel with an explicit closed
state: `send` fails once closed, `close` is idempotent, receive drains
remaining items after close and then signals end-of-stream. -/
structure Chan (α : Type) where
  queue : List α
  closed : Bool
deriving DecidableEq

def Chan.init {α : Type} : Chan α := ⟨[], false⟩

/-- Modelled from the spec: `send(event)` enqueues; fails (returns `none`) if
the channel is already closed. -/
def Chan.send_nowait {α : Type} (c : Chan α) (x : α) : Option (Chan α) :=
  if c.closed then none else some { c with queue := c.queue ++ [x] }

/-- Modelled from the spec: `close()` is idempotent; it only marks the closed
flag, already-buffered items stay receivable. -/
def Chan.close {α : Type} (c : Chan α) : Chan α := { c with closed := true }

/-- Result of a non-blocking poll of the channel: an item is ready, the
channel is closed and drained (end-of-stream), or a receive would block. -/
inductive RecvNow (α : Type) where
  | item (x : α) (rest : Chan α)
  | closedEnd
  | wouldBlock
deriving DecidableEq

/-- Modelled from the spec: `receive()` returns the next event if buffered,
signals end-of-stream when closed and drained, and otherwise suspends. -/
def Chan.recvNow {α : Type} (c : Chan α) : RecvNow α :=
  match c.queue with
  | x :: rest => .item x { c with queue := rest }
  | [] => if c.closed then .closedEnd else .wouldBlock

/-- Embeds `rtc.AudioFrame` as far as this layer observes it: raw sample data
plus sample rate and channel count. -/
structure AudioFrame where
  data : List Int
  sample_rate : Nat
  num_channels : Nat
deriving DecidableEq

/-- Embeds the `SynthesizedAudio` dataclass (tts.py lines 13-22). -/
structure SynthesizedAudio where
  request_id : String
  segment_id : String
  frame : AudioFrame
  delta_text : String := ""
deriving DecidableEq

/-- Embeds the `TTSCapabilities` dataclass (tts.py lines 25-27). -/
structure TTSCapabilities where
  streaming : Bool
deriving DecidableEq

/-- The error kinds of spec section 7, as raised by the source: RuntimeError
"... is closed" (streamClosed), RuntimeError "... input ended" (inputEnded),
NotImplementedError from `TTS.stream` (unsupportedOperation), and ChanClosed
from a send on a closed channel (queueClosed). -/
inductive TTSError where
  | streamClosed
  | inputEnded
  | unsupportedOperation
  | queueClosed
deriving DecidableEq

/-- What the background task delivers during a blocking wait inside
`__anext__`: nothing (`none`), or at elapsed time `t` either an event or
channel closure.  This is the environment input of the embedded step. -/
inductive RecvEvent where
  | ev (a : SynthesizedAudio)
  | closedEnd
deriving DecidableEq

abbrev Arrival := Option (Rat × RecvEvent)

/-- Outcome of one embedded `__anext__` call: an event plus the successor
state, StopAsyncIteration (end-of-stream), the raised timeout error carrying
its message and the state left behind, or an indefinite wait. -/
inductive AnextResult (σ : Type) where
  | ok (a : SynthesizedAudio) (s : σ)
  | stopIteration (s : σ)
  | timeoutError (msg : String) (s : σ)
  | blocked
deriving DecidableEq

/-- Embeds `ChunkedStream` state (tts.py lines 69-109): the event channel and
the three timeout fields set in `__init__`. -/
structure ChunkedStream where
  event_ch : Chan SynthesizedAudio
  connect_timeout : Rat
  keepalive_timeout : Rat
  timeout : Rat
deriving DecidableEq

/-- Embeds `ChunkedStream.__init__` (lines 72-78): fresh channel, and the
active `_timeout` starts as `_connect_timeout`. -/
def ChunkedStream.init (connect_timeout keepalive_timeout : Rat) : ChunkedStream :=
  { event_ch := Chan.init
    connect_timeout := connect_timeout
    keepalive_timeout := keepalive_timeout
    timeout := connect_timeout }

/-- Outcome of the background task; the done callback runs for every one. -/
inductive TaskOutcome where
  | success
  | failure
  | cancelled
deriving DecidableEq

/-- Embeds the done callback installed at line 75:
`self._task.add_done_callback(lambda _: self._event_ch.close())`.  It runs
whatever the task outcome was. -/
def ChunkedStream.onTaskDone (_o : TaskOutcome) (s : ChunkedStream) : ChunkedStream :=
  { s with event_ch := s.event_ch.close }

/-- Embeds `ChunkedStream.aclose` (lines 90-93): cancel the task (abstract;
its only state effect here is via the done callback, which also closes the
event channel) then close the event channel. -/
def ChunkedStream.aclose (s : ChunkedStream) : ChunkedStream :=
  { s with event_ch := s.event_ch.close }

/-- Embeds `ChunkedStream.__anext__` (lines 95-106).  If an event is already
buffered the wait completes at once; if the channel is closed and drained,
StopAsyncIteration propagates (through `asyncio.wait_for` unchanged).  On a
genuinely blocking wait, when `_timeout > 0` the wait is bounded: an arrival
strictly before the deadline wins, otherwise the TimeoutError is re-raised as
"synthesis timed out" BEFORE `_timeout` is reassigned; when `_timeout <= 0`
the wait is unbounded.  After any successful receive
`self._timeout = self._keepalive_timeout`. -/
def ChunkedStream.anext (s : ChunkedStream) (arrival : Arrival) : AnextResult ChunkedStream :=
  match s.event_ch.recvNow with
  | .item ev ch => .ok ev { s with event_ch := ch, timeout := s.keepalive_timeout }
  | .closedEnd => .stopIteration s
  | .wouldBlock =>
    if 0 < s.timeout then
      match arrival with
      | some (t, e) =>
        if t < s.timeout then
          match e with
          | .ev a => .ok a { s with timeout := s.keepalive_timeout }
          | .closedEnd => .stopIteration s
        else .timeoutError "synthesis timed out" s
      | none => .timeoutError "synthesis timed out" s
    else
      match arrival with
      | some (_, .ev a) => .ok a { s with timeout := s.keepalive_timeout }
      | some (_, .closedEnd) => .stopIteration s
      | none => .blocked

/-- The consumer's k-th `__anext__` call (0-based), given the arrival
schedule: earlier calls that return an event advance the state; the first
non-`ok` result is what the consumer observes from then on in this run. -/
def ChunkedStream.anextIter : (Nat → Arrival) → ChunkedStream → Nat → AnextResult ChunkedStream
  | sched, s, 0 => s.anext (sched 0)
  | sched, s, n + 1 =>
    match s.anext (sched 0) with
    | .ok _ s' => ChunkedStream.anextIter (fun k => sched (k + 1)) s' n
    | r => r

/-- Modelled from the spec: `misc.merge_frames` (imported from `..utils.misc`,
not part of the provided sources): "concatenates all received frames into one
contiguous audio buffer"; the frames must share one sample rate and channel
count, and at least one frame is required. -/
def merge_frames (frames : List AudioFrame) : Option AudioFrame :=
  match frames with
  | [] => none
  | f :: rest =>
    if rest.all (fun g => g.sample_rate == f.sample_rate && g.num_channels == f.num_channels) then
      some ⟨(frames.map AudioFrame.data).flatten, f.sample_rate, f.num_channels⟩
    else none

/-- Embeds the `async for` loop of `ChunkedStream.collect` (lines 80-85):
call `__anext__` until StopAsyncIteration, accumulating `ev.frame`.  A raised
timeout or an indefinite wait means the loop never completes normally
(`none`); `fuel` bounds the number of iterations of the embedding. -/
def ChunkedStream.collectLoop :
    Nat → (Nat → Arrival) → ChunkedStream → List AudioFrame →
    Option (List AudioFrame × ChunkedStream)
  | 0, _, _, _ => none
  | fuel + 1, sched, s, frames =>
    match s.anext (sched 0) with
    | .ok ev s' => ChunkedStream.collectLoop fuel (fun k => sched (k + 1)) s' (frames ++ [ev.frame])
    | .stopIteration s' => some (frames, s')
    | _ => none

/-- Embeds `ChunkedStream.collect` (lines 80-85): drive iteration to
exhaustion, then `merge_frames` the collected frames.  Returns the merged
frame together with the stream state the loop ends in. -/
def ChunkedStream.collect (fuel : Nat) (sched : Nat → Arrival) (s : ChunkedStream) :
    Option (Option AudioFrame × ChunkedStream) :=
  (ChunkedStream.collectLoop fuel sched s []).map fun p => (merge_frames p.1, p.2)

/-- Embeds the `_FlushSentinel`-tagged input alphabet of `SynthesizeStream`
(lines 113-117): `Union[str, SynthesizeStream._FlushSentinel]`. -/
inductive InputItem where
  | token (s : String)
  | flushSentinel
deriving DecidableEq

/-- Embeds `SynthesizeStream` state (tts.py lines 112-180): input channel,
event channel, the timeout fields, and the `_standby` flag. -/
structure SynthesizeStream where
  input_ch : Chan InputItem
  event_ch : Chan SynthesizedAudio
  connect_timeout : Rat
  keepalive_timeout : Rat
  timeout : Rat
  standby : Bool
deriving DecidableEq

/-- Embeds `SynthesizeStream.__init__` (lines 116-124). -/
def SynthesizeStream.init (connect_timeout keepalive_timeout : Rat) : SynthesizeStream :=
  { input_ch := Chan.init
    event_ch := Chan.init
    connect_timeout := connect_timeout
    keepalive_timeout := keepalive_timeout
    timeout := connect_timeout
    standby := true }

/-- Embeds the done callback installed at line 120: it closes the event
channel whatever the task outcome was. -/
def SynthesizeStream.onTaskDone (_o : TaskOutcome) (s : SynthesizeStream) : SynthesizeStream :=
  { s with event_ch := s.event_ch.close }

/-- Embeds `SynthesizeStream._check_not_closed` (lines 156-159). -/
def SynthesizeStream._check_not_closed (s : SynthesizeStream) : Except TTSError Unit :=
  if s.event_ch.closed then .error .streamClosed else .ok ()

/-- Embeds `SynthesizeStream._check_input_not_ended` (lines 161-164). -/
def SynthesizeStream._check_input_not_ended (s : SynthesizeStream) : Except TTSError Unit :=
  if s.input_ch.closed then .error .inputEnded else .ok ()

/-- Embeds `SynthesizeStream.push_text` (lines 133-137): the input-ended
check runs first, then the closed check, then `send_nowait(token)`. -/
def SynthesizeStream.push_text (s : SynthesizeStream) (token : String) :
    Except TTSError SynthesizeStream :=
  match s._check_input_not_ended with
  | .error e => .error e
  | .ok _ =>
    match s._check_not_closed with
    | .error e => .error e
    | .ok _ =>
      match s.input_ch.send_nowait (.token token) with
      | some ch => .ok { s with input_ch := ch }
      | none => .error .queueClosed

/-- Embeds `SynthesizeStream.flush` (lines 139-143): same checks, then
`send_nowait(self._FlushSentinel())`. -/
def SynthesizeStream.flush (s : SynthesizeStream) : Except TTSError SynthesizeStream :=
  match s._check_input_not_ended with
  | .error e => .error e
  | .ok _ =>
    match s._check_not_closed with
    | .error e => .error e
    | .ok _ =>
      match s.input_ch.send_nowait .flushSentinel with
      | some ch => .ok { s with input_ch := ch }
      | none => .error .queueClosed

/-- Embeds `SynthesizeStream.end_input` (lines 145-148): `self.flush()` (its
errors propagate) then `self._input_ch.close()`. -/
def SynthesizeStream.end_input (s : SynthesizeStream) : Except TTSError SynthesizeStream :=
  match s.flush with
  | .error e => .error e
  | .ok s' => .ok { s' with input_ch := s'.input_ch.close }

/-- Embeds `SynthesizeStream.aclose` (lines 150-154): close the input
channel, cancel the task (abstract; its state effect is the done callback,
which also closes the event channel), close the event channel. -/
def SynthesizeStream.aclose (s : SynthesizeStream) : SynthesizeStream :=
  { s with input_ch := s.input_ch.close, event_ch := s.event_ch.close }

/-- Embeds `SynthesizeStream.__anext__` (lines 166-177), textually the same
logic as `ChunkedStream.__anext__`; see `ChunkedStream.anext`. -/
def SynthesizeStream.anext (s : SynthesizeStream) (arrival : Arrival) :
    AnextResult SynthesizeStream :=
  match s.event_ch.recvNow with
  | .item ev ch => .ok ev { s with event_ch := ch, timeout := s.keepalive_timeout }
  | .closedEnd => .stopIteration s
  | .wouldBlock =>
    if 0 < s.timeout then
      match arrival with
      | some (t, e) =>
        if t < s.timeout then
          match e with
          | .ev a => .ok a { s with timeout := s.keepalive_timeout }
          | .closedEnd => .stopIteration s
        else .timeoutError "synthesis timed out" s
      | none => .timeoutError "synthesis timed out" s
    else
      match arrival with
      | some (_, .ev a) => .ok a { s with timeout := s.keepalive_timeout }
      | some (_, .closedEnd) => .stopIteration s
      | none => .blocked

/-- The consumer's k-th `__anext__` call on a `SynthesizeStream`; see
`ChunkedStream.anextIter`. -/
def SynthesizeStream.anextIter : (Nat → Arrival) → SynthesizeStream → Nat → AnextResult SynthesizeStream
  | sched, s, 0 => s.anext (sched 0)
  | sched, s, n + 1 =>
    match s.anext (sched 0) with
    | .ok _ s' => SynthesizeStream.anextIter (fun k => sched (k + 1)) s' n
    | r => r

/-- Embeds the `TTS` base-class state (tts.py lines 30-44): the five fields
assigned in `__init__` and never reassigned anywhere in the file. -/
structure TTS where
  _capabilities : TTSCapabilities
  _sample_rate : Nat
  _num_channels : Nat
  _connect_timeout : Rat
  _keepalive_timeout : Rat
deriving DecidableEq

/-- Embeds `TTS.__init__` (lines 31-44). -/
def TTS.init (capabilities : TTSCapabilities) (sample_rate num_channels : Nat)
    (connect_timeout keepalive_timeout : Rat) : TTS :=
  ⟨capabilities, sample_rate, num_channels, connect_timeout, keepalive_timeout⟩

/-- Embeds the `capabilities` property (lines 46-48). -/
def TTS.capabilities (t : TTS) : TTSCapabilities := t._capabilities

/-- Embeds the `sample_rate` property (lines 50-52). -/
def TTS.sample_rate (t : TTS) : Nat := t._sample_rate

/-- Embeds the `num_channels` property (lines 54-56). -/
def TTS.num_channels (t : TTS) : Nat := t._num_channels

/-- Embeds `TTS.stream` (lines 61-64): the base class raises
NotImplementedError unconditionally; no `SynthesizeStream` is ever built. -/
def TTS.stream (_t : TTS) : Except TTSError SynthesizeStream :=
  .error .unsupportedOperation

/-- Embeds `TTS.aclose` (line 66): the body is `...`, a no-op on state. -/
def TTS.aclose (t : TTS) : TTS := t

/-- The operations the source defines on a provider object itself (the stream
objects it hands out are separate values). -/
inductive TTSOp where
  | acloseOp
  | streamOp
deriving DecidableEq

/-- One provider-level operation: `aclose` is a state no-op, `stream` raises
without touching the provider. -/
def TTS.runOp (t : TTS) : TTSOp → TTS
  | .acloseOp => t.aclose
  | .streamOp => t

/-- A whole sequence of provider-level operations. -/
def TTS.runOps (t : TTS) (ops : List TTSOp) : TTS :=
  ops.foldl TTS.runOp t

/-- A concrete synthesized-audio event used to instantiate witnesses. -/
def sampleAudio : SynthesizedAudio := ⟨"req-1", "seg-1", ⟨[1, 2], 16000, 1⟩, "hi"⟩

/-- A second concrete event, used by other witnesses. -/
def sampleAudio2 : SynthesizedAudio := ⟨"req-2", "seg-1", ⟨[3], 16000, 1⟩, ""⟩

/-! Helper lemmas shared by the claim theorems. -/

theorem Chan.recvNow_cons {α : Type} {c : Chan α} {x : α} {rest : List α}
    (h : c.queue = x :: rest) : c.recvNow = .item x { c with queue := rest } := by
  unfold Chan.recvNow
  rw [h]

theorem Chan.recvNow_closed_nil {α : Type} {c : Chan α}
    (h1 : c.closed = true) (h2 : c.queue = []) : c.recvNow = .closedEnd := by
  unfold Chan.recvNow
  rw [h2]
  simp [h1]

theorem chunked_anext_of_recvNow_item {s : ChunkedStream} {ev : SynthesizedAudio}
    {ch : Chan SynthesizedAudio} (a : Arrival) (h : s.event_ch.recvNow = .item ev ch) :
    s.anext a = .ok ev { s with event_ch := ch, timeout := s.keepalive_timeout } := by
  unfold ChunkedStream.anext
  rw [h]

theorem chunked_anext_of_recvNow_closedEnd {s : ChunkedStream} (a : Arrival)
    (h : s.event_ch.recvNow = .closedEnd) : s.anext a = .stopIteration s := by
  unfold ChunkedStream.anext
  rw [h]

theorem synth_anext_of_recvNow_item {s : SynthesizeStream} {ev : SynthesizedAudio}
    {ch : Chan SynthesizedAudio} (a : Arrival) (h : s.event_ch.recvNow = .item ev ch) :
    s.anext a = .ok ev { s with event_ch := ch, timeout := s.keepalive_timeout } := by
  unfold SynthesizeStream.anext
  rw [h]

theorem synth_anext_of_recvNow_closedEnd {s : SynthesizeStream} (a : Arrival)
    (h : s.event_ch.recvNow = .closedEnd) : s.anext a = .stopIteration s := by
  unfold SynthesizeStream.anext
  rw [h]

theorem chunked_anext_ok_timeout {s : ChunkedStream} {a : Arrival}
    {ev : SynthesizedAudio} {s' : ChunkedStream} (h : s.anext a = .ok ev s') :
    s'.timeout = s.keepalive_timeout := by
  unfold ChunkedStream.anext at h
  repeat' split at h
  all_goals simp_all
  all_goals rw [← h.2]

theorem synth_anext_ok_timeout {s : SynthesizeStream} {a : Arrival}
    {ev : SynthesizedAudio} {s' : SynthesizeStream} (h : s.anext a = .ok ev s') :
    s'.timeout = s.keepalive_timeout := by
  unfold SynthesizeStream.anext at h
  repeat' split at h
  all_goals simp_all
  all_goals rw [← h.2]

theorem chunked_anext_timeoutError_inv {s : ChunkedStream} {a : Arrival} {msg : String}
    {s' : ChunkedStream} (h : s.anext a = .timeoutError msg s') :
    s' = s ∧ msg = "synthesis timed out" ∧ s.event_ch.recvNow = .wouldBlock ∧ 0 < s.timeout := by
  unfold ChunkedStream.anext at h
  repeat' split at h
  all_goals simp_all

theorem synth_anext_timeoutError_inv {s : SynthesizeStream} {a : Arrival} {msg : String}
    {s' : SynthesizeStream} (h : s.anext a = .timeoutError msg s') :
    s' = s ∧ msg = "synthesis timed out" ∧ s.event_ch.recvNow = .wouldBlock ∧ 0 < s.timeout := by
  unfold SynthesizeStream.anext at h
  repeat' split at h
  all_goals simp_all

theorem chunked_anext_wouldBlock_timeout_none {s : ChunkedStream}
    (h0 : 0 < s.timeout) (hb : s.event_ch.recvNow = .wouldBlock) :
    s.anext none = .timeoutError "synthesis timed out" s := by
  unfold ChunkedStream.anext
  rw [hb]
  simp [h0]

theorem chunked_anext_wouldBlock_timeout_late {s : ChunkedStream} {t : Rat}
    (e : RecvEvent) (h0 : 0 < s.timeout) (hb : s.event_ch.recvNow = .wouldBlock)
    (ht : s.timeout ≤ t) : s.anext (some (t, e)) = .timeoutError "synthesis timed out" s := by
  unfold ChunkedStream.anext
  rw [hb]
  simp [h0, not_lt.mpr ht]

theorem chunked_anext_wouldBlock_early_ev {s : ChunkedStream} {t : Rat}
    (ev : SynthesizedAudio) (h0 : 0 < s.timeout) (hb : s.event_ch.recvNow = .wouldBlock)
    (ht : t < s.timeout) :
    s.anext (some (t, .ev ev)) = .ok ev { s with timeout := s.keepalive_timeout } := by
  unfold ChunkedStream.anext
  rw [hb]
  simp [h0, ht]

theorem chunked_anext_wouldBlock_noTimeout_none {s : ChunkedStream}
    (h0 : s.timeout ≤ 0) (hb : s.event_ch.recvNow = .wouldBlock) :
    s.anext none = .blocked := by
  unfold ChunkedStream.anext
  rw [hb]
  simp [not_lt.mpr h0]

theorem chunked_anext_wouldBlock_noTimeout_ev {s : ChunkedStream} (t : Rat)
    (ev : SynthesizedAudio) (h0 : s.timeout ≤ 0) (hb : s.event_ch.recvNow = .wouldBlock) :
    s.anext (some (t, .ev ev)) = .ok ev { s with timeout := s.keepalive_timeout } := by
  unfold ChunkedStream.anext
  rw [hb]
  simp [not_lt.mpr h0]

theorem synth_anext_wouldBlock_timeout_none {s : SynthesizeStream}
    (h0 : 0 < s.timeout) (hb : s.event_ch.recvNow = .wouldBlock) :
    s.anext none = .timeoutError "synthesis timed out" s := by
  unfold SynthesizeStream.anext
  rw [hb]
  simp [h0]

theorem synth_anext_wouldBlock_timeout_late {s : SynthesizeStream} {t : Rat}
    (e : RecvEvent) (h0 : 0 < s.timeout) (hb : s.event_ch.recvNow = .wouldBlock)
    (ht : s.timeout ≤ t) : s.anext (some (t, e)) = .timeoutError "synthesis timed out" s := by
  unfold SynthesizeStream.anext
  rw [hb]
  simp [h0, not_lt.mpr ht]

theorem synth_anext_wouldBlock_early_ev {s : SynthesizeStream} {t : Rat}
    (ev : SynthesizedAudio) (h0 : 0 < s.timeout) (hb : s.event_ch.recvNow = .wouldBlock)
    (ht : t < s.timeout) :
    s.anext (some (t, .ev ev)) = .ok ev { s with timeout := s.keepalive_timeout } := by
  unfold SynthesizeStream.anext
  rw [hb]
  simp [h0, ht]

theorem synth_anext_wouldBlock_noTimeout_none {s : SynthesizeStream}
    (h0 : s.timeout ≤ 0) (hb : s.event_ch.recvNow = .wouldBlock) :
    s.anext none = .blocked := by
  unfold SynthesizeStream.anext
  rw [hb]
  simp [not_lt.mpr h0]

theorem synth_anext_wouldBlock_noTimeout_ev {s : SynthesizeStream} (t : Rat)
    (ev : SynthesizedAudio) (h0 : s.timeout ≤ 0) (hb : s.event_ch.recvNow = .wouldBlock) :
    s.anext (some (t, .ev ev)) = .ok ev { s with timeout := s.keepalive_timeout } := by
  unfold SynthesizeStream.anext
  rw [hb]
  simp [not_lt.mpr h0]

theorem chunked_anextIter_closed :
    ∀ (q : List SynthesizedAudio) (s : ChunkedStream) (sched : Nat → Arrival),
      s.event_ch.closed = true → s.event_ch.queue = q →
      ∃ s', ChunkedStream.anextIter sched s q.length = .stopIteration s'
  | [], s, sched, hc, hq => by
    refine ⟨s, ?_⟩
    have h1 : s.anext (sched 0) = .stopIteration s :=
      chunked_anext_of_recvNow_closedEnd _ (Chan.recvNow_closed_nil hc hq)
    simpa [ChunkedStream.anextIter] using h1
  | x :: q, s, sched, hc, hq => by
    have hstep := chunked_anext_of_recvNow_item (sched 0) (Chan.recvNow_cons hq)
    obtain ⟨s', hs'⟩ := chunked_anextIter_closed q
      { s with event_ch := { s.event_ch with queue := q }, timeout := s.keepalive_timeout }
      (fun k => sched (k + 1)) hc rfl
    exact ⟨s', by simp [ChunkedStream.anextIter, hstep, hs']⟩

theorem synth_anextIter_closed :
    ∀ (q : List SynthesizedAudio) (s : SynthesizeStream) (sched : Nat → Arrival),
      s.event_ch.closed = true → s.event_ch.queue = q →
      ∃ s', SynthesizeStream.anextIter sched s q.length = .stopIteration s'
  | [], s, sched, hc, hq => by
    refine ⟨s, ?_⟩
    have h1 : s.anext (sched 0) = .stopIteration s :=
      synth_anext_of_recvNow_closedEnd _ (Chan.recvNow_closed_nil hc hq)
    simpa [SynthesizeStream.anextIter] using h1
  | x :: q, s, sched, hc, hq => by
    have hstep := synth_anext_of_recvNow_item (sched 0) (Chan.recvNow_cons hq)
    obtain ⟨s', hs'⟩ := synth_anextIter_closed q
      { s with event_ch := { s.event_ch with queue := q }, timeout := s.keepalive_timeout }
      (fun k => sched (k + 1)) hc rfl
    exact ⟨s', by simp [SynthesizeStream.anextIter, hstep, hs']⟩

theorem ChunkedStream.collectLoop_closed :
    ∀ (q : List SynthesizedAudio) (s : ChunkedStream) (sched : Nat → Arrival)
      (acc : List AudioFrame),
      s.event_ch.closed = true → s.event_ch.queue = q →
      ∃ s', ChunkedStream.collectLoop (q.length + 1) sched s acc
            = some (acc ++ q.map SynthesizedAudio.frame, s')
        ∧ s'.event_ch.closed = true ∧ s'.event_ch.queue = []
  | [], s, sched, acc, hc, hq => by
    refine ⟨s, ?_, hc, hq⟩
    have h1 : s.anext (sched 0) = .stopIteration s :=
      chunked_anext_of_recvNow_closedEnd _ (Chan.recvNow_closed_nil hc hq)
    simp [ChunkedStream.collectLoop, h1]
  | x :: q, s, sched, acc, hc, hq => by
    have hstep := chunked_anext_of_recvNow_item (sched 0) (Chan.recvNow_cons hq)
    obtain ⟨s', h1, h2, h3⟩ := ChunkedStream.collectLoop_closed q
      { s with event_ch := { s.event_ch with queue := q }, timeout := s.keepalive_timeout }
      (fun k => sched (k + 1)) (acc ++ [x.frame]) hc rfl
    refine ⟨s', ?_, h2, h3⟩
    have hstep2 : ChunkedStream.collectLoop ((x :: q).length + 1) sched s acc
        = ChunkedStream.collectLoop (q.length + 1) (fun k => sched (k + 1))
            { s with event_ch := { s.event_ch with queue := q }, timeout := s.keepalive_timeout }
            (acc ++ [x.frame]) := by
      show ChunkedStream.collectLoop (q.length + 1 + 1) sched s acc = _
      rw [ChunkedStream.collectLoop, hstep]
    rw [hstep2, h1, List.append_assoc]
    rfl

theorem merge_frames_uniform (f0 : AudioFrame) (fs : List AudioFrame)
    (h : ∀ g ∈ fs, g.sample_rate = f0.sample_rate ∧ g.num_channels = f0.num_channels) :
    merge_frames (f0 :: fs)
      = some ⟨((f0 :: fs).map AudioFrame.data).flatten, f0.sample_rate, f0.num_channels⟩ := by
  unfold merge_frames
  have hall : fs.all
      (fun g => g.sample_rate == f0.sample_rate && g.num_channels == f0.num_channels) = true := by
    rw [List.all_eq_true]
    intro g hg
    have hg' := h g hg
    simp [hg'.1, hg'.2]
  simp [hall]

theorem SynthesizeStream.push_text_of_input_closed {s : SynthesizeStream} (tok : String)
    (h : s.input_ch.closed = true) : s.push_text tok = .error .inputEnded := by
  obtain ⟨⟨qi, ci⟩, e, ct, kt, tm, st⟩ := s
  cases ci
  · cases h
  · rfl

theorem SynthesizeStream.flush_of_input_closed {s : SynthesizeStream}
    (h : s.input_ch.closed = true) : s.flush = .error .inputEnded := by
  obtain ⟨⟨qi, ci⟩, e, ct, kt, tm, st⟩ := s
  cases ci
  · cases h
  · rfl

theorem SynthesizeStream.push_text_of_event_closed {s : SynthesizeStream} (tok : String)
    (h1 : s.input_ch.closed = false) (h2 : s.event_ch.closed = true) :
    s.push_text tok = .error .streamClosed := by
  obtain ⟨⟨qi, ci⟩, ⟨qe, ce⟩, ct, kt, tm, st⟩ := s
  cases ci
  · cases ce
    · cases h2
    · rfl
  · cases h1

theorem SynthesizeStream.flush_of_event_closed {s : SynthesizeStream}
    (h1 : s.input_ch.closed = false) (h2 : s.event_ch.closed = true) :
    s.flush = .error .streamClosed := by
  obtain ⟨⟨qi, ci⟩, ⟨qe, ce⟩, ct, kt, tm, st⟩ := s
  cases ci
  · cases ce
    · cases h2
    · rfl
  · cases h1

theorem SynthesizeStream.flush_ok_inv {s s' : SynthesizeStream} (h : s.flush = .ok s') :
    s.input_ch.closed = false ∧ s.event_ch.closed = false
    ∧ s' = { s with input_ch :=
        { s.input_ch with queue := s.input_ch.queue ++ [.flushSentinel] } } := by
  unfold SynthesizeStream.flush SynthesizeStream._check_input_not_ended
    SynthesizeStream._check_not_closed Chan.send_nowait at h
  repeat' split at h
  all_goals simp_all

example : (ChunkedStream.init 1 2).timeout = 1 := rfl
example : (ChunkedStream.init 1 2).anext none
    = .timeoutError "synthesis timed out" (ChunkedStream.init 1 2) := by
  decide
example : (ChunkedStream.init 0 2).anext none = .blocked := by decide
example :
    ((SynthesizeStream.init 0 0).aclose).push_text "x" = .error .inputEnded := rfl
example : merge_frames [⟨[1, 2], 8, 1⟩, ⟨[3], 8, 1⟩] = some ⟨[1, 2, 3], 8, 1⟩ := by
  decide

/-! Claim theorems. -/

/-- C1: For every ChunkedStream and SynthesizeStream, the first call to
next() applies connect_timeout as the maximum wait (the active timeout starts
as connect_timeout, and the blocking wait is won by an arrival strictly
before the active timeout and lost otherwise) and, after the first
successful receive, every later call applies keepalive_timeout (every
successful next() sets the active timeout to keepalive_timeout); a configured
timeout value of zero or less disables the timeout and next() waits
indefinitely. -/
theorem tts_C1_timeout_selection :
    (∀ ct kt : Rat,
        (ChunkedStream.init ct kt).timeout = ct ∧ (SynthesizeStream.init ct kt).timeout = ct)
  ∧ (∀ (s : ChunkedStream) (a : Arrival) (ev : SynthesizedAudio) (s' : ChunkedStream),
        s.anext a = .ok ev s' → s'.timeout = s.keepalive_timeout)
  ∧ (∀ (s : SynthesizeStream) (a : Arrival) (ev : SynthesizedAudio) (s' : SynthesizeStream),
        s.anext a = .ok ev s' → s'.timeout = s.keepalive_timeout)
  ∧ (∀ (s : ChunkedStream), 0 < s.timeout → s.event_ch.recvNow = .wouldBlock →
        (s.anext none = .timeoutError "synthesis timed out" s)
        ∧ (∀ (t : Rat) (e : RecvEvent), s.timeout ≤ t →
            s.anext (some (t, e)) = .timeoutError "synthesis timed out" s)
        ∧ (∀ (t : Rat) (ev : SynthesizedAudio), t < s.timeout →
            s.anext (some (t, .ev ev)) = .ok ev { s with timeout := s.keepalive_timeout }))
  ∧ (∀ (s : SynthesizeStream), 0 < s.timeout → s.event_ch.recvNow = .wouldBlock →
        (s.anext none = .timeoutError "synthesis timed out" s)
        ∧ (∀ (t : Rat) (e : RecvEvent), s.timeout ≤ t →
            s.anext (some (t, e)) = .timeoutError "synthesis timed out" s)
        ∧ (∀ (t : Rat) (ev : SynthesizedAudio), t < s.timeout →
            s.anext (some (t, .ev ev)) = .ok ev { s with timeout := s.keepalive_timeout }))
  ∧ (∀ (s : ChunkedStream), s.timeout ≤ 0 → s.event_ch.recvNow = .wouldBlock →
        (s.anext none = .blocked)
        ∧ (∀ (t : Rat) (ev : SynthesizedAudio),
            s.anext (some (t, .ev ev)) = .ok ev { s with timeout := s.keepalive_timeout }))
  ∧ (∀ (s : SynthesizeStream), s.timeout ≤ 0 → s.event_ch.recvNow = .wouldBlock →
        (s.anext none = .blocked)
        ∧ (∀ (t : Rat) (ev : SynthesizedAudio),
            s.anext (some (t, .ev ev)) = .ok ev { s with timeout := s.keepalive_timeout })) := by
  refine ⟨fun ct kt => ⟨rfl, rfl⟩, ?_, ?_, ?_, ?_, ?_, ?_⟩
  · intro s a ev s' h
    exact chunked_anext_ok_timeout h
  · intro s a ev s' h
    exact synth_anext_ok_timeout h
  · intro s h0 hb
    exact ⟨chunked_anext_wouldBlock_timeout_none h0 hb,
      fun t e ht => chunked_anext_wouldBlock_timeout_late e h0 hb ht,
      fun t ev ht => chunked_anext_wouldBlock_early_ev ev h0 hb ht⟩
  · intro s h0 hb
    exact ⟨synth_anext_wouldBlock_timeout_none h0 hb,
      fun t e ht => synth_anext_wouldBlock_timeout_late e h0 hb ht,
      fun t ev ht => synth_anext_wouldBlock_early_ev ev h0 hb ht⟩
  · intro s h0 hb
    exact ⟨chunked_anext_wouldBlock_noTimeout_none h0 hb,
      fun t ev => chunked_anext_wouldBlock_noTimeout_ev t ev h0 hb⟩
  · intro s h0 hb
    exact ⟨synth_anext_wouldBlock_noTimeout_none h0 hb,
      fun t ev => synth_anext_wouldBlock_noTimeout_ev t ev h0 hb⟩

theorem tts_C1_timeout_selection_witness :
    (ChunkedStream.init 1 2).anext (some ((1 : Rat), .ev sampleAudio))
        = .timeoutError "synthesis timed out" (ChunkedStream.init 1 2)
    ∧ (ChunkedStream.init 1 2).anext (some ((0 : Rat), .ev sampleAudio))
        = .ok sampleAudio { ChunkedStream.init 1 2 with
            timeout := (ChunkedStream.init 1 2).keepalive_timeout } := by
  have h := tts_C1_timeout_selection.2.2.2.1 (ChunkedStream.init 1 2) (by decide) rfl
  exact ⟨h.2.1 1 (.ev sampleAudio) (by decide), h.2.2 0 sampleAudio (by decide)⟩

/-- C10: a next() call that fails with a timeout leaves the stream state, in
particular the active-timeout field, unchanged (the error is raised before
the reassignment at lines 105/176), so a retry is bounded by the same
timeout that was active before — and the retry can still succeed: an event
arriving immediately is returned. -/
theorem tts_C10_failed_next_keeps_timeout :
    (∀ (s : ChunkedStream) (a : Arrival) (msg : String) (s' : ChunkedStream),
        s.anext a = .timeoutError msg s' → s' = s)
  ∧ (∀ (s : SynthesizeStream) (a : Arrival) (msg : String) (s' : SynthesizeStream),
        s.anext a = .timeoutError msg s' → s' = s)
  ∧ (∀ (s : ChunkedStream) (a : Arrival) (msg : String) (s' : ChunkedStream),
        s.anext a = .timeoutError msg s' →
        ∀ ev : SynthesizedAudio,
          s'.anext (some (0, .ev ev)) = .ok ev { s' with timeout := s'.keepalive_timeout })
  ∧ (∀ (s : SynthesizeStream) (a : Arrival) (msg : String) (s' : SynthesizeStream),
        s.anext a = .timeoutError msg s' →
        ∀ ev : SynthesizedAudio,
          s'.anext (some (0, .ev ev)) = .ok ev { s' with timeout := s'.keepalive_timeout }) := by
  refine ⟨?_, ?_, ?_, ?_⟩
  · intro s a msg s' h
    exact (chunked_anext_timeoutError_inv h).1
  · intro s a msg s' h
    exact (synth_anext_timeoutError_inv h).1
  · intro s a msg s' h ev
    obtain ⟨hs, -, hb, h0⟩ := chunked_anext_timeoutError_inv h
    subst hs
    exact chunked_anext_wouldBlock_early_ev ev h0 hb h0
  · intro s a msg s' h ev
    obtain ⟨hs, -, hb, h0⟩ := synth_anext_timeoutError_inv h
    subst hs
    exact synth_anext_wouldBlock_early_ev ev h0 hb h0

theorem tts_C10_failed_next_keeps_timeout_witness :
    (SynthesizeStream.init 2 3).anext (some ((0 : Rat), .ev sampleAudio2))
      = .ok sampleAudio2 { SynthesizeStream.init 2 3 with
          timeout := (SynthesizeStream.init 2 3).keepalive_timeout } :=
  tts_C10_failed_next_keeps_timeout.2.2.2 (SynthesizeStream.init 2 3) none
    "synthesis timed out" (SynthesizeStream.init 2 3) rfl sampleAudio2

/-- C2 counterexample: on the concrete stream `ChunkedStream.init 1 1` a
first next() with no arrival fails with the timeout error as claimed, but a
further next() call with an event arriving returns that event — it does not
signal end-of-stream, refuting "the stream is considered failed, and all
further next() calls signal end-of-stream". -/
theorem tts_C2_counterexample :
    (ChunkedStream.init 1 1).anext none
        = .timeoutError "synthesis timed out" (ChunkedStream.init 1 1)
    ∧ (ChunkedStream.init 1 1).anext (some ((0 : Rat), .ev sampleAudio))
        = .ok sampleAudio { ChunkedStream.init 1 1 with timeout := 1 }
    ∧ AnextResult.ok sampleAudio { ChunkedStream.init 1 1 with timeout := 1 }
        ≠ AnextResult.stopIteration { ChunkedStream.init 1 1 with timeout := 1 } := by
  refine ⟨rfl, rfl, ?_⟩
  decide

/-- C2 (amended): For every stream, if the active timeout (when positive)
elapses before an event is received, next() fails with SynthesisTimeout
carrying the message "synthesis timed out"; the stream is NOT marked failed —
its state is left unchanged — and a further next() call does not signal
end-of-stream but retries the receive and succeeds if an event arrives. -/
theorem tts_C2_amended_timeout_behavior :
    (∀ (s : ChunkedStream), 0 < s.timeout → s.event_ch.recvNow = .wouldBlock →
        (s.anext none = .timeoutError "synthesis timed out" s)
        ∧ (∀ (t : Rat) (e : RecvEvent), s.timeout ≤ t →
            s.anext (some (t, e)) = .timeoutError "synthesis timed out" s)
        ∧ (∀ (ev : SynthesizedAudio),
            (∀ s'', s.anext (some (0, .ev ev)) ≠ .stopIteration s'')
            ∧ s.anext (some (0, .ev ev)) = .ok ev { s with timeout := s.keepalive_timeout }))
  ∧ (∀ (s : SynthesizeStream), 0 < s.timeout → s.event_ch.recvNow = .wouldBlock →
        (s.anext none = .timeoutError "synthesis timed out" s)
        ∧ (∀ (t : Rat) (e : RecvEvent), s.timeout ≤ t →
            s.anext (some (t, e)) = .timeoutError "synthesis timed out" s)
        ∧ (∀ (ev : SynthesizedAudio),
            (∀ s'', s.anext (some (0, .ev ev)) ≠ .stopIteration s'')
            ∧ s.anext (some (0, .ev ev)) = .ok ev { s with timeout := s.keepalive_timeout })) := by
  constructor
  · intro s h0 hb
    have hok := fun ev => chunked_anext_wouldBlock_early_ev ev h0 hb h0
    refine ⟨chunked_anext_wouldBlock_timeout_none h0 hb,
      fun t e ht => chunked_anext_wouldBlock_timeout_late e h0 hb ht,
      fun ev => ⟨fun s'' hcontra => ?_, hok ev⟩⟩
    rw [hok ev] at hcontra
    exact AnextResult.noConfusion hcontra
  · intro s h0 hb
    have hok := fun ev => synth_anext_wouldBlock_early_ev ev h0 hb h0
    refine ⟨synth_anext_wouldBlock_timeout_none h0 hb,
      fun t e ht => synth_anext_wouldBlock_timeout_late e h0 hb ht,
      fun ev => ⟨fun s'' hcontra => ?_, hok ev⟩⟩
    rw [hok ev] at hcontra
    exact AnextResult.noConfusion hcontra

theorem tts_C2_amended_timeout_behavior_witness :
    (SynthesizeStream.init 5 7).anext none
      = .timeoutError "synthesis timed out" (SynthesizeStream.init 5 7) :=
  (tts_C2_amended_timeout_behavior.2 (SynthesizeStream.init 5 7) (by decide) rfl).1

/-- C3 counterexample: on the concrete open stream `SynthesizeStream.init 0 0`,
push_text after close() fails with InputEnded, not StreamClosed as claimed:
`aclose` closes the input channel too (line 152), and `push_text` runs
`_check_input_not_ended` before `_check_not_closed` (lines 135-136). -/
theorem tts_C3_counterexample :
    ((SynthesizeStream.init 0 0).aclose).push_text "hello" = .error .inputEnded
    ∧ ((SynthesizeStream.init 0 0).aclose).flush = .error .inputEnded
    ∧ (Except.error TTSError.inputEnded : Except TTSError SynthesizeStream)
        ≠ Except.error TTSError.streamClosed := by
  refine ⟨rfl, rfl, fun h => ?_⟩
  injection h with h'
  cases h'

/-- C3 (amended): calling push_text or flush after end_input() always fails
with InputEnded; after close() they ALSO fail with InputEnded (close() closes
the input queue as well, and the input-ended check runs before the closed
check); StreamClosed is raised only when the event side is closed while the
input side has not ended. -/
theorem tts_C3_amended_error_postconditions :
    (∀ (s s' : SynthesizeStream) (tok : String), s.end_input = .ok s' →
        s'.push_text tok = .error .inputEnded ∧ s'.flush = .error .inputEnded)
  ∧ (∀ (s : SynthesizeStream) (tok : String),
        (s.aclose).push_text tok = .error .inputEnded
        ∧ (s.aclose).flush = .error .inputEnded)
  ∧ (∀ (s : SynthesizeStream) (tok : String),
        s.input_ch.closed = false → s.event_ch.closed = true →
        s.push_text tok = .error .streamClosed ∧ s.flush = .error .streamClosed) := by
  refine ⟨?_, ?_, ?_⟩
  · intro s s' tok h
    have hclosed : s'.input_ch.closed = true := by
      unfold SynthesizeStream.end_input at h
      split at h
      · cases h
      · cases h
        rfl
    exact ⟨SynthesizeStream.push_text_of_input_closed tok hclosed,
      SynthesizeStream.flush_of_input_closed hclosed⟩
  · intro s tok
    have hclosed : (s.aclose).input_ch.closed = true := rfl
    exact ⟨SynthesizeStream.push_text_of_input_closed tok hclosed,
      SynthesizeStream.flush_of_input_closed hclosed⟩
  · intro s tok h1 h2
    exact ⟨SynthesizeStream.push_text_of_event_closed tok h1 h2,
      SynthesizeStream.flush_of_event_closed h1 h2⟩

theorem tts_C3_amended_error_postconditions_witness :
    ({ SynthesizeStream.init 0 0 with
        event_ch := ⟨[], true⟩ } : SynthesizeStream).push_text "x" = .error .streamClosed
    ∧ ({ SynthesizeStream.init 0 0 with
        event_ch := ⟨[], true⟩ } : SynthesizeStream).flush = .error .streamClosed :=
  tts_C3_amended_error_postconditions.2.2
    { SynthesizeStream.init 0 0 with event_ch := ⟨[], true⟩ } "x" rfl rfl

/-- C4: in a state where flush() succeeds, end_input() is equivalent to
flush() followed by closing the input queue; it appends exactly one flush
marker, afterwards push_text and flush fail with InputEnded, and the
already-buffered input (plus the appended marker) remains in the input queue
for the background task to drain. -/
theorem tts_C4_end_input_equiv :
    ∀ (s s' : SynthesizeStream), s.flush = .ok s' →
      s.end_input = .ok { s' with input_ch := s'.input_ch.close }
      ∧ (∀ s'', s.end_input = .ok s'' →
          s''.input_ch.queue = s.input_ch.queue ++ [InputItem.flushSentinel]
          ∧ s''.input_ch.closed = true
          ∧ (∀ tok, s''.push_text tok = .error .inputEnded)
          ∧ s''.flush = .error .inputEnded) := by
  intro s s' h
  have hend : s.end_input = .ok { s' with input_ch := s'.input_ch.close } := by
    unfold SynthesizeStream.end_input
    rw [h]
  refine ⟨hend, fun s'' h2 => ?_⟩
  have hs'' : s'' = { s' with input_ch := s'.input_ch.close } := by
    rw [hend] at h2
    injection h2 with h3
    exact h3.symm
  obtain ⟨-, -, hflush⟩ := SynthesizeStream.flush_ok_inv h
  subst hs''
  subst hflush
  refine ⟨rfl, rfl, fun tok => ?_, ?_⟩
  · exact SynthesizeStream.push_text_of_input_closed tok rfl
  · exact SynthesizeStream.flush_of_input_closed rfl

theorem tts_C4_end_input_equiv_witness :
    (SynthesizeStream.init 0 0).end_input
      = .ok { ({ SynthesizeStream.init 0 0 with
            input_ch := ⟨[InputItem.flushSentinel], false⟩ } : SynthesizeStream) with
          input_ch :=
            ({ SynthesizeStream.init 0 0 with
              input_ch := ⟨[InputItem.flushSentinel], false⟩ } : SynthesizeStream).input_ch.close } :=
  (tts_C4_end_input_equiv (SynthesizeStream.init 0 0)
    { SynthesizeStream.init 0 0 with input_ch := ⟨[InputItem.flushSentinel], false⟩ } rfl).1

/-- C5: for every ChunkedStream and SynthesizeStream, whenever the background
task terminates — by success, failure, or cancellation — the done callback
closes the event queue, so a consumer iterating the stream observes
end-of-stream after at most the number of still-buffered events, whatever
the arrival schedule. -/
theorem tts_C5_task_done_closes :
    (∀ (o : TaskOutcome) (s : ChunkedStream) (sched : Nat → Arrival),
        (s.onTaskDone o).event_ch.closed = true
        ∧ ∃ s', ChunkedStream.anextIter sched (s.onTaskDone o) s.event_ch.queue.length
            = .stopIteration s')
  ∧ (∀ (o : TaskOutcome) (s : SynthesizeStream) (sched : Nat → Arrival),
        (s.onTaskDone o).event_ch.closed = true
        ∧ ∃ s', SynthesizeStream.anextIter sched (s.onTaskDone o) s.event_ch.queue.length
            = .stopIteration s') := by
  constructor
  · intro o s sched
    exact ⟨rfl, chunked_anextIter_closed s.event_ch.queue (s.onTaskDone o) sched rfl rfl⟩
  · intro o s sched
    exact ⟨rfl, synth_anextIter_closed s.event_ch.queue (s.onTaskDone o) sched rfl rfl⟩

/-- C6: for every provider whose capabilities declare no streaming support,
stream() fails deterministically and immediately with the unsupported
operation error (the base-class `TTS.stream` raises NotImplementedError
unconditionally) and never returns a stream. -/
theorem tts_C6_stream_unsupported :
    ∀ (t : TTS), t.capabilities.streaming = false →
      t.stream = .error .unsupportedOperation :=
  fun _ _ => rfl

theorem tts_C6_stream_unsupported_witness :
    (TTS.init ⟨false⟩ 16000 1 0 0).stream = .error .unsupportedOperation :=
  tts_C6_stream_unsupported (TTS.init ⟨false⟩ 16000 1 0 0) rfl

/-- C7: for a ChunkedStream whose background task has produced frames
F1..Fn (n >= 1, same sample rate and channel count) and terminated (event
queue closed), collect() drives iteration to exhaustion and returns the
single frame whose sample data is the concatenation of F1..Fn in order,
leaving the stream with a closed, drained event queue. -/
theorem tts_C7_collect_concat :
    ∀ (s : ChunkedStream) (sched : Nat → Arrival) (f0 : AudioFrame) (fs : List AudioFrame),
      s.event_ch.closed = true →
      s.event_ch.queue.map SynthesizedAudio.frame = f0 :: fs →
      (∀ g ∈ fs, g.sample_rate = f0.sample_rate ∧ g.num_channels = f0.num_channels) →
      ∃ s', s.collect (s.event_ch.queue.length + 1) sched
          = some (some ⟨((f0 :: fs).map AudioFrame.data).flatten,
              f0.sample_rate, f0.num_channels⟩, s')
        ∧ s'.event_ch.closed = true ∧ s'.event_ch.queue = [] := by
  intro s sched f0 fs hc hmap huni
  obtain ⟨s', hloop, h2, h3⟩ :=
    ChunkedStream.collectLoop_closed s.event_ch.queue s sched [] hc rfl
  refine ⟨s', ?_, h2, h3⟩
  unfold ChunkedStream.collect
  rw [hloop, List.nil_append, hmap]
  simp [merge_frames_uniform f0 fs huni]

theorem tts_C7_collect_concat_witness :
    ∃ s', ({ event_ch := ⟨[sampleAudio, sampleAudio2], true⟩,
             connect_timeout := 0,
             keepalive_timeout := 0,
             timeout := 0 } : ChunkedStream).collect
        (({ event_ch := ⟨[sampleAudio, sampleAudio2], true⟩,
            connect_timeout := 0,
            keepalive_timeout := 0,
            timeout := 0 } : ChunkedStream).event_ch.queue.length + 1)
        (fun _ => none)
        = some (some ⟨((⟨[1, 2], 16000, 1⟩ :: [(⟨[3], 16000, 1⟩ : AudioFrame)]).map
            AudioFrame.data).flatten, 16000, 1⟩, s')
      ∧ s'.event_ch.closed = true ∧ s'.event_ch.queue = [] :=
  tts_C7_collect_concat
    { event_ch := ⟨[sampleAudio, sampleAudio2], true⟩,
      connect_timeout := 0,
      keepalive_timeout := 0,
      timeout := 0 }
    (fun _ => none) ⟨[1, 2], 16000, 1⟩ [⟨[3], 16000, 1⟩] rfl rfl (by decide)

/-- C8: for every provider instance and every sequence of provider-level
operations, the capabilities, sample_rate and num_channels accessors return
exactly the values given at construction; nothing in the source ever
reassigns them. -/
theorem tts_C8_config_immutable :
    ∀ (c : TTSCapabilities) (r n : Nat) (ct kt : Rat) (ops : List TTSOp),
      (TTS.runOps (TTS.init c r n ct kt) ops).capabilities = c
      ∧ (TTS.runOps (TTS.init c r n ct kt) ops).sample_rate = r
      ∧ (TTS.runOps (TTS.init c r n ct kt) ops).num_channels = n := by
  have hrun : ∀ (ops : List TTSOp) (t : TTS), TTS.runOps t ops = t := by
    intro ops
    induction ops with
    | nil => intro t; rfl
    | cons op ops ih =>
      intro t
      have hop : TTS.runOp t op = t := by cases op <;> rfl
      calc TTS.runOps t (op :: ops) = TTS.runOps (TTS.runOp t op) ops := rfl
        _ = TTS.runOp t op := ih _
        _ = t := hop
  intro c r n ct kt ops
  rw [hrun]
  exact ⟨rfl, rfl, rfl⟩

/-- C9: close() is idempotent on both stream kinds: a second close leaves
exactly the state of the first close, and closing an already naturally
exhausted stream (channels closed) is a state no-op — nothing is released
twice and no error is possible (close is a total function here). -/
theorem tts_C9_aclose_idempotent :
    (∀ s : ChunkedStream, s.aclose.aclose = s.aclose)
  ∧ (∀ s : SynthesizeStream, s.aclose.aclose = s.aclose)
  ∧ (∀ s : ChunkedStream, s.event_ch.closed = true → s.aclose = s)
  ∧ (∀ s : SynthesizeStream,
        s.input_ch.closed = true → s.event_ch.closed = true → s.aclose = s) := by
  refine ⟨fun s => rfl, fun s => rfl, ?_, ?_⟩
  · intro s h
    obtain ⟨⟨qe, ce⟩, ct, kt, tm⟩ := s
    cases ce
    · cases h
    · rfl
  · intro s h1 h2
    obtain ⟨⟨qi, ci⟩, ⟨qe, ce⟩, ct, kt, tm, st⟩ := s
    cases ci
    · cases h1
    · cases ce
      · cases h2
      · rfl

theorem tts_C9_aclose_idempotent_witness :
    ({ event_ch := ⟨[], true⟩,
       connect_timeout := 4,
       keepalive_timeout := 6,
       timeout := 6 } : ChunkedStream).aclose
      = { event_ch := ⟨[], true⟩,
          connect_timeout := 4,
          keepalive_timeout := 6,
          timeout := 6 } :=
  tts_C9_aclose_idempotent.2.2.1
    { event_ch := ⟨[], true⟩, connect_timeout := 4, keepalive_timeout := 6, timeout := 6 } rfl
